import Mathlib

/-!
# Fingerprint-Based Digital Wallet System — verification of the spec against the code

Shallow embedding of the backend of the Fingerprint-Based-Digital-Wallet-System
repository (`backend/server.js` and the `routes/transfer.js` router), restricted to
the parts the claims are about: the wallet/transfer endpoints, the WebAuthn
challenge-ceremony endpoints, and the relying-party domain resolver.

Modelling conventions:
* The Supabase tables `users`, `wallets`, `transactions` are modelled as the fields
  of `ServerState`.  `users` and `wallets` are keyed by username (the `users` table
  has `username TEXT UNIQUE`; the code reads and updates wallets only through
  `eq('username', …)` point queries), so both are `String → Option _` maps.
  `transactions` is an append-only list.
* The in-process challenge cache `global.challenges` (a single map shared by the
  registration and the login ceremony, keyed by username) is
  `challenges : String → Option String`.
* Supabase's `.single()` reports an error (`PGRST116`) when the query matches zero
  rows, while `.maybeSingle()` returns `data = null` with no error — the code's own
  comment on `getUserByUsername` says so ("Returns null if no rows, doesn't throw
  error").  `dbSingle` models `.single()` accordingly.
* JavaScript truthiness on request fields: a missing or empty string is falsy, a
  missing or zero number is falsy (`truthyStr`, `truthyInt`).
* Request-body numbers are modelled as integers (`Int`), per the data model
  (`balance BIGINT`, `amount BIGINT`).
* Store writes whose success the claims do not quantify over are modelled as
  succeeding; the two inserts of `register/complete`, whose failure the claims do
  quantify over, take explicit success flags (`StoreOracle`).
-/

namespace FPWallet

/-- A row of the `transactions` table (the fields the code writes). -/
structure Tx where
  sender : String
  receiver : String
  amount : Int
  deriving DecidableEq, Repr

/-- A row of the `users` table (the fields the ceremony code reads and writes). -/
structure UserRec where
  credentialId : String
  publicKey : String
  deriving DecidableEq, Repr

/-- The credential payload sent by the browser: `credential.id` and the optional
`credential.response?.publicKey`. -/
structure CredentialPayload where
  id : String
  publicKey : Option String
  deriving DecidableEq, Repr

/-- The whole observable server state: the three Supabase tables plus the
in-process challenge cache `global.challenges`. -/
structure ServerState where
  users : String → Option UserRec
  wallets : String → Option Int
  txLog : List Tx
  challenges : String → Option String

/-- Point update of a username-keyed map (an `update … eq('username', k)` or an
insert of a row keyed by `k`). -/
def mapSet (m : String → Option α) (k : String) (v : α) : String → Option α :=
  fun x => if x = k then some v else m x

/-- Deletion from a username-keyed map (`delete global.challenges[u]`). -/
def mapDel (m : String → Option α) (k : String) : String → Option α :=
  fun x => if x = k then none else m x

/-- JavaScript truthiness of an optional string field: absent and `""` are falsy. -/
def truthyStr : Option String → Bool
  | none => false
  | some s => s ≠ ""

/-- JavaScript truthiness of an optional integer field: absent and `0` are falsy. -/
def truthyInt : Option Int → Bool
  | none => false
  | some n => n ≠ 0

/-- Supabase `.select('balance').eq('username', k).single()`: an error when the
query matches zero rows (`PGRST116`), the row's balance otherwise. -/
def dbSingle (m : String → Option Int) (k : String) : Except Unit Int :=
  match m k with
  | none => .error ()
  | some b => .ok b

/-- The body of a transfer request: `{ sender, receiver, amount }`. -/
structure SendRequest where
  sender : Option String
  receiver : Option String
  amount : Option Int
  deriving DecidableEq, Repr

/-- Outcome of `POST /api/wallet/send` as the client observes it. -/
inductive SendResult where
  /-- HTTP 400, `sender, receiver and amount are required`. -/
  | validationError : SendResult
  /-- HTTP 400, `Insufficient balance`. -/
  | insufficientBalance : SendResult
  /-- HTTP 500, `Internal error` (a `.single()` lookup errored). -/
  | internalError : SendResult
  /-- HTTP 200, `{ success: true, message: 'Transfer completed' }`. -/
  | ok : SendResult
  deriving DecidableEq, Repr

/-- Handler `app.post('/api/wallet/send')` from `backend/server.js` (lines 541–600):
validate truthiness of the three fields; fetch the sender's balance with
`.single()`; reject `balance < amount`; write `balance - amount` to the sender;
fetch the receiver's balance with `.single()`; write `balance + amount` to the
receiver; append a transaction row (whose failure is only logged).  The
`(receiverWallet?.balance || 0)` default collapses to the balance itself once
`.single()` has succeeded, because `x || 0` is `x` on integers (`0 || 0` is `0`). -/
def walletSend (st : ServerState) (req : SendRequest) : ServerState × SendResult :=
  if ¬ (truthyStr req.sender ∧ truthyStr req.receiver ∧ truthyInt req.amount) then
    (st, .validationError)
  else
    let sender := req.sender.getD ""
    let receiver := req.receiver.getD ""
    let amount := req.amount.getD 0
    match dbSingle st.wallets sender with
    | .error _ => (st, .internalError)
    | .ok senderBalance =>
      if senderBalance < amount then (st, .insufficientBalance)
      else
        let st₁ : ServerState :=
          { st with wallets := mapSet st.wallets sender (senderBalance - amount) }
        match dbSingle st₁.wallets receiver with
        | .error _ => (st₁, .internalError)
        | .ok receiverBalance =>
          let newReceiverBalance := receiverBalance + amount
          let st₂ : ServerState :=
            { st₁ with wallets := mapSet st₁.wallets receiver newReceiverBalance }
          let st₃ : ServerState :=
            { st₂ with txLog := st₂.txLog ++ [⟨sender, receiver, amount⟩] }
          (st₃, .ok)

/-- Outcome of `POST /api/transfer` (the router in `routes/transfer.js`). -/
inductive TransferResult where
  /-- HTTP 400: missing field or `Number(amount) <= 0`. -/
  | validationError : TransferResult
  /-- HTTP 400: the RPC reported `success = false` (its message is forwarded). -/
  | rpcFailure : String → TransferResult
  /-- HTTP 500: the RPC call itself errored. -/
  | internalError : TransferResult
  /-- HTTP 200, `{ success, message, transactionId }`. -/
  | ok : TransferResult
  deriving DecidableEq, Repr

/-- Result row of the `transfer_funds` SQL function. -/
structure RpcResult where
  success : Bool
  message : String
  deriving DecidableEq, Repr

/-- Modelled from the spec: the `transfer_funds` SQL function called by
`POST /api/transfer` is not in the repository sources (only its caller is).  Per
the spec's transfer algorithm it reads the sender's balance (failing when the
sender wallet lookup returns nothing), checks the non-negative-balance invariant
(failing with insufficient balance when `senderBalance < amount`), writes
`senderBalance - amount`, reads the receiver's balance defaulting to `0` when the
wallet is absent, writes `receiverBalance + amount`, appends a transaction record,
and returns a structured result with a message. -/
def transfer_funds (st : ServerState) (s r : String) (a : Int) :
    ServerState × RpcResult :=
  match st.wallets s with
  | none => (st, ⟨false, "Sender wallet not found"⟩)
  | some senderBalance =>
    if senderBalance < a then (st, ⟨false, "Insufficient balance"⟩)
    else
      let w₁ := mapSet st.wallets s (senderBalance - a)
      let receiverBalance := (w₁ r).getD 0
      let w₂ := mapSet w₁ r (receiverBalance + a)
      ({ st with wallets := w₂, txLog := st.txLog ++ [⟨s, r, a⟩] },
       ⟨true, "Transfer completed"⟩)

/-- Handler `router.post('/transfer')` from `routes/transfer.js` (lines 42–93): reject a
missing `sender`/`receiver` or a `null` `amount`; reject `Number(amount) <= 0`;
call the `transfer_funds` RPC; forward an unsuccessful result's message with
HTTP 400 and a successful one with HTTP 200. -/
def apiTransfer (st : ServerState) (req : SendRequest) : ServerState × TransferResult :=
  if ¬ (truthyStr req.sender ∧ truthyStr req.receiver ∧ req.amount ≠ none) then
    (st, .validationError)
  else
    let a := req.amount.getD 0
    if a ≤ 0 then (st, .validationError)
    else
      let res := transfer_funds st (req.sender.getD "") (req.receiver.getD "") a
      if res.2.success then (res.1, .ok) else (res.1, .rpcFailure res.2.message)

/-! ## Relying-party domain resolution (`getEffectiveDomain`) -/

/-- The inputs `getEffectiveDomain` reads: the `WEBAUTHN_RP_ID` environment
variable and the request's `Host` and `Origin` headers (each possibly absent). -/
structure DomainReq where
  envRpId : Option String
  host : Option String
  origin : Option String
  deriving DecidableEq, Repr

/-- Splits a character list at the first occurrence of `://` (character
operations are used instead of `String` library primitives so that concrete
instances reduce in the kernel). -/
def splitSchemeSep : List Char → Option (List Char × List Char)
  | [] => none
  | ':' :: '/' :: '/' :: rest => some ([], rest)
  | c :: rest =>
    match splitSchemeSep rest with
    | none => none
    | some (pre, post) => some (c :: pre, post)

/-- Hostname extraction of `new URL(origin).hostname` for the origin strings the
resolver sees: a parse succeeds on `scheme://host[:port][/path]` with a nonempty
scheme and host, and the hostname is the part between `://` and the first `:` or
`/`; anything else throws (modelled as `none`). -/
def urlHostname (s : String) : Option String :=
  match splitSchemeSep s.data with
  | none => none
  | some (scheme, rest) =>
    if scheme = [] then none
    else
      let h := rest.takeWhile (fun c => c ≠ ':' ∧ c ≠ '/')
      if h = [] then none else some ⟨h⟩

/-- The www-stripping rule `domain.startsWith('www.') ? domain.substring(4) : domain`. -/
def stripWww (domain : String) : String :=
  if "www.".data.isPrefixOf domain.data then ⟨domain.data.drop 4⟩ else domain

/-- The expression `host.split(':')[0]`: the part of the header before the first `:`. -/
def hostnamePart (host : String) : String :=
  ⟨host.data.takeWhile (fun c => c ≠ ':')⟩

/-- The `Host`-header fallback of `getEffectiveDomain`: `host.split(':')[0]`,
returned as-is for `localhost`/`127.0.0.1` and with a leading `www.` stripped
otherwise. -/
def hostFallback (host : String) : String :=
  if hostnamePart host = "localhost" ∨ hostnamePart host = "127.0.0.1"
  then hostnamePart host
  else stripWww (hostnamePart host)

/-- The part of `getEffectiveDomain` after the environment-variable check:
`const host = req.get('host') || 'localhost'` then the `Origin`-header branch with
the `Host`-header fallback. -/
def getEffectiveDomainNoEnv (hostHdr originHdr : Option String) : String :=
  let host := match hostHdr with
    | none => "localhost"
    | some h => if h = "" then "localhost" else h
  match originHdr with
  | some o =>
    if o ≠ "" then
      match urlHostname o with
      | some domain =>
        if domain = "localhost" ∨ domain = "127.0.0.1" then domain
        else stripWww domain
      | none => hostFallback host
    else hostFallback host
  | none => hostFallback host

/-- Resolver `getEffectiveDomain` from `backend/server.js` (lines 76–132): a truthy
`WEBAUTHN_RP_ID` environment variable wins verbatim; else the `Origin` header, when
truthy and parseable, supplies its hostname (`localhost`/`127.0.0.1` as-is, a
leading `www.` stripped otherwise); else the `Host` header — defaulted to
`localhost` when falsy — supplies its pre-`:` portion under the same
`localhost`/`www.` rules. -/
def getEffectiveDomain (req : DomainReq) : String :=
  match req.envRpId with
  | some e =>
    if e ≠ "" then e
    else getEffectiveDomainNoEnv req.host req.origin
  | none => getEffectiveDomainNoEnv req.host req.origin

/-- The specification's wording of the resolver below its override clause: when an
Origin header is present and parseable, its hostname with a leading `www.`
stripped and `localhost`/`127.0.0.1` passed through unchanged; otherwise the Host
header's hostname with the port and any leading `www.` stripped (a falsy Host
header counting as absent); otherwise `localhost`. -/
def specResolverNoEnv (hostHdr originHdr : Option String) : String :=
  match originHdr.bind urlHostname with
  | some h => if h = "localhost" ∨ h = "127.0.0.1" then h else stripWww h
  | none =>
    match hostHdr with
    | some h => if h = "" then "localhost" else stripWww (hostnamePart h)
    | none => "localhost"

/-- The specification's wording of the whole resolver: the configured override
verbatim when one is set, regardless of headers; otherwise `specResolverNoEnv`. -/
def specDomainResolver (req : DomainReq) : String :=
  if truthyStr req.envRpId then req.envRpId.getD ""
  else specResolverNoEnv req.host req.origin

/-! ## WebAuthn ceremony endpoints -/

/-- Outcome of the two `start` endpoints. -/
inductive StartResult where
  /-- HTTP 400, `Username is required`. -/
  | validationError : StartResult
  /-- HTTP 400, `Username already exists` (`/api/register/start`). -/
  | duplicateUser : StartResult
  /-- HTTP 404, `User not found` (`/api/login/start`). -/
  | userNotFound : StartResult
  /-- HTTP 200: the options object carrying the fresh challenge. -/
  | ok : StartResult
  deriving DecidableEq, Repr

/-- Outcome of the two `complete` endpoints. -/
inductive CompleteResult where
  /-- HTTP 400, `Username and credential are required`. -/
  | validationError : CompleteResult
  /-- HTTP 400, `Invalid or expired challenge`. -/
  | noChallenge : CompleteResult
  /-- HTTP 404, `User not found` (`/api/login/complete`). -/
  | userNotFound : CompleteResult
  /-- HTTP 401, `Authentication failed` (credential-id mismatch). -/
  | credentialMismatch : CompleteResult
  /-- HTTP 500: a Supabase insert failed (`/api/register/complete`). -/
  | storeError : CompleteResult
  /-- HTTP 200, `{ success: true, … }`. -/
  | ok : CompleteResult
  deriving DecidableEq, Repr

/-- Success flags for the two Supabase inserts of `/api/register/complete`,
injected as inputs because the store is external. -/
structure StoreOracle where
  userInsertOk : Bool
  walletInsertOk : Bool
  deriving DecidableEq, Repr

/-- Handler `app.post('/api/register/start')` (lines 138–207): reject a falsy username;
reject an existing user (`Username already exists`); otherwise cache a freshly
generated challenge under the username — overwriting any prior one — and return
the registration options carrying it.  The generated random challenge is the
input `ch`. -/
def registerStart (st : ServerState) (username : Option String) (ch : String) :
    ServerState × StartResult :=
  if ¬ truthyStr username then (st, .validationError)
  else
    let u := username.getD ""
    match st.users u with
    | some _ => (st, .duplicateUser)
    | none => ({ st with challenges := mapSet st.challenges u ch }, .ok)

/-- Handler `app.post('/api/register/complete')` (lines 213–322): reject falsy fields;
reject when no challenge is cached for the username; insert the user row (the
`users` table's `username TEXT UNIQUE` makes the insert fail on an existing
username, and the store may fail on its own, `oracle.userInsertOk`); insert the
wallet row with balance `10000` and an empty transaction list
(`oracle.walletInsertOk`); only then delete the cached challenge and report
success.  An insert failure returns HTTP 500 with the challenge left in place —
and, for a wallet-insert failure, with the user row already written. -/
def registerComplete (st : ServerState) (username : Option String)
    (credential : Option CredentialPayload) (oracle : StoreOracle) :
    ServerState × CompleteResult :=
  if ¬ (truthyStr username ∧ credential ≠ none) then (st, .validationError)
  else
    let u := username.getD ""
    let cred := credential.getD ⟨"", none⟩
    match st.challenges u with
    | none => (st, .noChallenge)
    | some _ =>
      if ¬ oracle.userInsertOk ∨ (st.users u).isSome then (st, .storeError)
      else
        let st₁ : ServerState :=
          { st with users := mapSet st.users u ⟨cred.id, cred.publicKey.getD "stored"⟩ }
        if ¬ oracle.walletInsertOk then (st₁, .storeError)
        else
          let st₂ : ServerState := { st₁ with wallets := mapSet st₁.wallets u 10000 }
          ({ st₂ with challenges := mapDel st₂.challenges u }, .ok)

/-- Handler `app.post('/api/login/start')` (lines 328–370): reject a falsy username;
reject an unknown user with 404; otherwise cache a freshly generated challenge
under the username — in the same `global.challenges` map the registration ceremony
uses — and return the authentication options carrying it. -/
def loginStart (st : ServerState) (username : Option String) (ch : String) :
    ServerState × StartResult :=
  if ¬ truthyStr username then (st, .validationError)
  else
    let u := username.getD ""
    match st.users u with
    | none => (st, .userNotFound)
    | some _ => ({ st with challenges := mapSet st.challenges u ch }, .ok)

/-- Handler `app.post('/api/login/complete')` (lines 376–420): reject falsy fields;
reject an unknown user with 404; reject when no challenge is cached for the
username; reject a credential id differing from the stored one with 401, leaving
the challenge in place; otherwise delete the cached challenge and report
success. -/
def loginComplete (st : ServerState) (username : Option String)
    (credential : Option CredentialPayload) : ServerState × CompleteResult :=
  if ¬ (truthyStr username ∧ credential ≠ none) then (st, .validationError)
  else
    let u := username.getD ""
    let cred := credential.getD ⟨"", none⟩
    match st.users u with
    | none => (st, .userNotFound)
    | some user =>
      match st.challenges u with
      | none => (st, .noChallenge)
      | some _ =>
        if cred.id ≠ user.credentialId then (st, .credentialMismatch)
        else ({ st with challenges := mapDel st.challenges u }, .ok)

/-! ## Theorems -/

/-- Applying `stripWww` to the two loopback names is the identity, so the code's explicit
`localhost`/`127.0.0.1` pass-through in the Host fallback changes nothing. -/
lemma hostFallback_eq_stripWww (host : String) :
    hostFallback host = stripWww (hostnamePart host) := by
  simp only [hostFallback]
  by_cases h : hostnamePart host = "localhost" ∨ hostnamePart host = "127.0.0.1"
  · simp only [h, if_true]
    rcases h with h | h <;> rw [h] <;> decide
  · simp only [h, if_false]

/-- The Host-header defaulting of the code (`req.get('host') || 'localhost'`
followed by `hostFallback`) agrees with the spec's Host clause. -/
lemma hostDefault_fallback_eq (hh : Option String) :
    hostFallback (match hh with
      | none => "localhost"
      | some h => if h = "" then "localhost" else h)
    = (match hh with
       | some h => if h = "" then "localhost" else stripWww (hostnamePart h)
       | none => "localhost") := by
  cases hh with
  | none => decide
  | some h =>
    by_cases hs : h = ""
    · simp only [hs, if_true, ite_true]
      decide
    · simp only [hs, if_false, ite_false, hostFallback_eq_stripWww]

/-- Below the override clause, the code's resolver and the spec's wording agree. -/
lemma noEnv_eq_spec (hh oh : Option String) :
    getEffectiveDomainNoEnv hh oh = specResolverNoEnv hh oh := by
  simp only [getEffectiveDomainNoEnv, specResolverNoEnv]
  cases oh with
  | none => simpa using hostDefault_fallback_eq hh
  | some o =>
    by_cases ho : o = ""
    · subst ho
      have h0 : urlHostname "" = none := by decide
      simp only [Option.some_bind, h0, ne_eq, not_true_eq_false, if_false]
      simpa using hostDefault_fallback_eq hh
    · simp only [Option.some_bind, ho, ne_eq, not_false_eq_true, if_true]
      cases hu : urlHostname o with
      | none => simpa [hu] using hostDefault_fallback_eq hh
      | some d => simp [hu]

/-- C7: the relying-party domain resolver returns the configured override
verbatim when one is set; otherwise a present, parseable Origin header's hostname
with a leading `www.` stripped and `localhost`/`127.0.0.1` passed through;
otherwise the Host header's hostname with port and leading `www.` stripped;
otherwise `localhost`.  In particular Origin `https://www.example.com` resolves to
`example.com`, and no Origin with Host `localhost:3000` resolves to `localhost`. -/
theorem getEffectiveDomain_follows_spec :
    (∀ req : DomainReq, getEffectiveDomain req = specDomainResolver req)
    ∧ getEffectiveDomain ⟨none, some "localhost:3000", some "https://www.example.com"⟩
        = "example.com"
    ∧ getEffectiveDomain ⟨none, some "localhost:3000", none⟩ = "localhost"
    ∧ getEffectiveDomain
        ⟨some "prod.example.org", some "localhost:3000", some "https://www.example.com"⟩
        = "prod.example.org" := by
  refine ⟨?_, by decide, by decide, by decide⟩
  intro req
  obtain ⟨env, hh, oh⟩ := req
  simp only [getEffectiveDomain, specDomainResolver, truthyStr]
  cases env with
  | none => simpa using noEnv_eq_spec hh oh
  | some e =>
    by_cases he : e = ""
    · simp only [he]
      simpa using noEnv_eq_spec hh oh
    · simp [he]

/-! ## Concrete states and helper lemmas for the transfer claims -/

/-- A server state with the given wallet rows, no users, no transactions and no
pending challenges (used to instantiate theorems at concrete inputs). -/
def mkState (ws : List (String × Int)) : ServerState :=
  { users := fun _ => none
    wallets := fun u => ws.lookup u
    txLog := []
    challenges := fun _ => none }

/-- A point update keeps a nonnegativity invariant when the written value is
nonnegative. -/
lemma mapSet_nonneg {m : String → Option Int} {k : String} {v : Int}
    (hm : ∀ u b, m u = some b → 0 ≤ b) (hv : 0 ≤ v) :
    ∀ u b, mapSet m k v u = some b → 0 ≤ b := by
  intro u b h
  unfold mapSet at h
  split at h
  · injection h with h
    omega
  · exact hm u b h

/-- A successful `.single()` lookup means the row is present with that balance. -/
lemma dbSingle_ok {m : String → Option Int} {k : String} {b : Int}
    (h : dbSingle m k = .ok b) : m k = some b := by
  unfold dbSingle at h
  split at h
  · exact absurd h (by simp)
  · rename_i c hc
    simp only [Except.ok.injEq] at h
    exact hc.trans (congrArg some h)

/-- C1 counterexample: from the all-nonnegative state `{alice ↦ 0, bob ↦ 50}`,
`POST /api/wallet/send` with the strictly negative amount `-100` passes the
truthiness validation and the `balance < amount` check, reports success, and
leaves bob's balance at `-50` — a Transfer has driven a balance below zero. -/
theorem walletSend_negative_amount_breaks_nonneg :
    (mkState [("alice", 0), ("bob", 50)]).wallets "alice" = some 0
    ∧ (mkState [("alice", 0), ("bob", 50)]).wallets "bob" = some 50
    ∧ (walletSend (mkState [("alice", 0), ("bob", 50)])
        ⟨some "alice", some "bob", some (-100)⟩).2 = .ok
    ∧ (walletSend (mkState [("alice", 0), ("bob", 50)])
        ⟨some "alice", some "bob", some (-100)⟩).1.wallets "bob" = some (-50) := by
  refine ⟨rfl, rfl, rfl, rfl⟩

/-- The spec-modelled `transfer_funds` RPC preserves nonnegativity of balances
for a positive amount. -/
lemma transfer_funds_nonneg (st : ServerState) (s r : String) (a : Int)
    (hnn : ∀ u b, st.wallets u = some b → 0 ≤ b) (hpos : 0 < a) :
    ∀ u b, (transfer_funds st s r a).1.wallets u = some b → 0 ≤ b := by
  intro u b hb
  simp only [transfer_funds] at hb
  split at hb
  · exact hnn u b hb
  · rename_i senderBalance hsender
    split at hb
    · exact hnn u b hb
    · rename_i hnotlt
      have hdiff : 0 ≤ senderBalance - a := by omega
      have hw₁ := mapSet_nonneg (m := st.wallets) (k := s) hnn hdiff
      have hrb : 0 ≤ (mapSet st.wallets s (senderBalance - a) r).getD 0 := by
        cases hr : mapSet st.wallets s (senderBalance - a) r with
        | none => simp
        | some c => simpa using hw₁ _ _ hr
      have hsum : 0 ≤ (mapSet st.wallets s (senderBalance - a) r).getD 0 + a := by omega
      exact mapSet_nonneg hw₁ hsum u b hb

/-- C1 (amended): when the requested amount is positive — the only case the
validation of `/api/wallet/send` fails to guarantee — both transfer endpoints
preserve nonnegativity of every wallet balance, on success and on every failure
path.  The `/api/transfer` half is settled against the spec-modelled
`transfer_funds`. -/
theorem transfer_positive_amount_preserves_nonneg
    (st : ServerState) (req : SendRequest) (a : Int)
    (hnn : ∀ u b, st.wallets u = some b → 0 ≤ b)
    (ha : req.amount = some a) (hpos : 0 < a) :
    (∀ u b, (walletSend st req).1.wallets u = some b → 0 ≤ b)
    ∧ (∀ u b, (apiTransfer st req).1.wallets u = some b → 0 ≤ b) := by
  obtain ⟨os, or, oa⟩ := req
  simp only at ha
  subst ha
  constructor
  · intro u b hb
    simp only [walletSend, Option.getD_some] at hb
    split at hb
    · exact hnn u b hb
    · split at hb
      · exact hnn u b hb
      · rename_i senderBalance hsingle
        have hsender := dbSingle_ok hsingle
        split at hb
        · exact hnn u b hb
        · rename_i hnotlt
          have hdiff : 0 ≤ senderBalance - a := by omega
          have hst₁ : ∀ u b,
              mapSet st.wallets (os.getD "") (senderBalance - a) u = some b → 0 ≤ b :=
            mapSet_nonneg hnn hdiff
          split at hb
          · exact hst₁ u b hb
          · rename_i receiverBalance hsingle₂
            have hrecv := dbSingle_ok hsingle₂
            have hrb : 0 ≤ receiverBalance := hst₁ _ _ hrecv
            have hsum : 0 ≤ receiverBalance + a := by omega
            exact mapSet_nonneg hst₁ hsum u b hb
  · intro u b hb
    simp only [apiTransfer, Option.getD_some] at hb
    split at hb
    · exact hnn u b hb
    · split at hb
      · exact hnn u b hb
      · split at hb <;>
          exact transfer_funds_nonneg st (os.getD "") (or.getD "") a hnn hpos u b hb

/-- Witness for the amended C1: a concrete all-nonnegative state and a positive
amount, instantiating the preservation theorem on the `/api/wallet/send` half. -/
theorem transfer_positive_amount_preserves_nonneg_witness :
    (walletSend (mkState [("carol", 5)])
        ⟨some "carol", some "dave", some 2⟩).1.wallets "carol" = some 3
    ∧ 0 ≤ (3 : Int) :=
  ⟨rfl,
   (transfer_positive_amount_preserves_nonneg (mkState [("carol", 5)])
      ⟨some "carol", some "dave", some 2⟩ 2
      (by
        intro u b h
        simp only [mkState, List.lookup] at h
        split at h
        · injection h with h
          omega
        · simp at h)
      rfl (by decide)).1 "carol" 3 rfl⟩

/-- C2: a transfer whose sender wallet holds `B` with `B < amount` (balances are
nonnegative per the data model, so the amount is truthy) fails with the
insufficient-balance error before any write: the returned state is the input
state, so both balances and the transaction log are untouched. -/
theorem walletSend_insufficient_balance_noop
    (st : ServerState) (s r : String) (a B : Int)
    (hs : s ≠ "") (hr : r ≠ "")
    (hw : st.wallets s = some B) (hB : 0 ≤ B) (hlt : B < a) :
    walletSend st ⟨some s, some r, some a⟩ = (st, .insufficientBalance) := by
  have ha : ¬ a = 0 := by omega
  simp only [walletSend, truthyStr, truthyInt, Option.getD_some, dbSingle, hw]
  simp [hs, hr, ha, hlt]

/-- Witness for C2: a concrete underfunded sender. -/
theorem walletSend_insufficient_balance_noop_witness :
    walletSend (mkState [("erin", 3), ("frank", 0)]) ⟨some "erin", some "frank", some 10⟩
      = (mkState [("erin", 3), ("frank", 0)], .insufficientBalance) :=
  walletSend_insufficient_balance_noop _ "erin" "frank" 10 3
    (by decide) (by decide) (by decide) (by decide) (by decide)

/-- C3 counterexample: `POST /api/wallet/send` with the strictly negative amount
`-5` is not rejected with a validation error — the `!amount` truthiness check only
catches a missing or zero amount — and the call mutates balances (bob drops from
`50` to `45`). -/
theorem walletSend_negative_amount_passes_validation :
    (walletSend (mkState [("alice", 10), ("bob", 50)])
        ⟨some "alice", some "bob", some (-5)⟩).2 = .ok
    ∧ (walletSend (mkState [("alice", 10), ("bob", 50)])
        ⟨some "alice", some "bob", some (-5)⟩).1.wallets "bob" = some 45 :=
  ⟨rfl, rfl⟩

/-- C3 (amended): `/api/wallet/send` fails with a validation error and performs no
mutation when a field is missing (falsy) or the amount is zero — but not for a
strictly negative amount — while `/api/transfer` does so for every missing field
and every amount ≤ 0. -/
theorem transfer_validation_rejections
    (st : ServerState) (req : SendRequest) (a : Int) :
    ((¬ (truthyStr req.sender ∧ truthyStr req.receiver)
        ∨ req.amount = none ∨ req.amount = some 0) →
      walletSend st req = (st, .validationError))
    ∧ ((¬ (truthyStr req.sender ∧ truthyStr req.receiver)
        ∨ req.amount = none ∨ (req.amount = some a ∧ a ≤ 0)) →
      apiTransfer st req = (st, .validationError)) := by
  constructor
  · intro h
    have hc : ¬ (truthyStr req.sender = true ∧ truthyStr req.receiver = true
        ∧ truthyInt req.amount = true) := by
      rcases h with h | h | h
      · tauto
      · rw [h]; simp [truthyInt]
      · rw [h]; simp [truthyInt]
    simp only [walletSend]
    rw [if_pos hc]
  · intro h
    simp only [apiTransfer]
    split
    · rfl
    · rename_i hcond
      rw [not_not] at hcond
      rcases h with h | h | ⟨ha, hle⟩
      · exact (h ⟨hcond.1, hcond.2.1⟩).elim
      · exact absurd h hcond.2.2
      · rw [ha]
        simp only [Option.getD_some]
        rw [if_pos hle]

/-- Witness for the amended C3: a zero amount on `/api/wallet/send` and a negative
amount on `/api/transfer`, both rejected without mutation. -/
theorem transfer_validation_rejections_witness :
    walletSend (mkState [("alice", 10)]) ⟨some "alice", some "bob", some 0⟩
      = (mkState [("alice", 10)], .validationError)
    ∧ apiTransfer (mkState [("alice", 10)]) ⟨some "alice", some "bob", some (-3)⟩
      = (mkState [("alice", 10)], .validationError) :=
  ⟨(transfer_validation_rejections (mkState [("alice", 10)])
      ⟨some "alice", some "bob", some 0⟩ 0).1 (by right; right; rfl),
   (transfer_validation_rejections (mkState [("alice", 10)])
      ⟨some "alice", some "bob", some (-3)⟩ (-3)).2
      (by right; right; exact ⟨rfl, by decide⟩)⟩

/-- C4 counterexample: with no wallet row for the sender, `/api/wallet/send`
returns the HTTP 500 internal error — `.single()` errors on zero rows — not a
wallet-not-found error (no outcome of this endpoint is a 404), with the state
untouched. -/
theorem walletSend_absent_sender_cex :
    walletSend (mkState [("bob", 50)]) ⟨some "alice", some "bob", some 5⟩
      = (mkState [("bob", 50)], .internalError) := rfl

/-- C4 (amended): whenever the sender wallet lookup returns no row, the operation
fails with the 500 internal error (never a wallet-not-found class) and performs no
write. -/
theorem walletSend_absent_sender_internal_error
    (st : ServerState) (s r : String) (a : Int)
    (hs : s ≠ "") (hr : r ≠ "") (ha : a ≠ 0)
    (hw : st.wallets s = none) :
    walletSend st ⟨some s, some r, some a⟩ = (st, .internalError) := by
  simp only [walletSend, truthyStr, truthyInt, Option.getD_some, dbSingle, hw]
  simp [hs, hr, ha]

/-- Witness for the amended C4. -/
theorem walletSend_absent_sender_internal_error_witness :
    walletSend (mkState [("zoe", 7)]) ⟨some "yuri", some "zoe", some 4⟩
      = (mkState [("zoe", 7)], .internalError) :=
  walletSend_absent_sender_internal_error _ "yuri" "zoe" 4
    (by decide) (by decide) (by decide) (by decide)

/-- C5: a successful `transfer(A, B, 500)` from a sender holding exactly `10000`
to a distinct existing receiver holding `R` leaves the sender at `9500`, the
receiver at `R + 500`, and appends exactly one transaction record
`{sender, receiver, amount := 500}`. -/
theorem walletSend_balance_10000_send_500
    (st : ServerState) (s r : String) (R : Int)
    (hs : s ≠ "") (hr : r ≠ "") (hsr : s ≠ r)
    (hws : st.wallets s = some 10000) (hwr : st.wallets r = some R) :
    (walletSend st ⟨some s, some r, some 500⟩).2 = .ok
    ∧ (walletSend st ⟨some s, some r, some 500⟩).1.wallets s = some 9500
    ∧ (walletSend st ⟨some s, some r, some 500⟩).1.wallets r = some (R + 500)
    ∧ (walletSend st ⟨some s, some r, some 500⟩).1.txLog
        = st.txLog ++ [⟨s, r, 500⟩] := by
  have hrs : r ≠ s := Ne.symm hsr
  have h1 : walletSend st ⟨some s, some r, some 500⟩
      = ({ st with
            wallets := mapSet (mapSet st.wallets s 9500) r (R + 500),
            txLog := st.txLog ++ [⟨s, r, 500⟩] }, .ok) := by
    simp only [walletSend, truthyStr, truthyInt, Option.getD_some, dbSingle, hws]
    have hm : mapSet st.wallets s 9500 r = some R := by
      simp [mapSet, hrs, hwr]
    simp [hs, hr, hm]
  rw [h1]
  refine ⟨rfl, ?_, ?_, rfl⟩
  · show mapSet (mapSet st.wallets s 9500) r (R + 500) s = some 9500
    simp [mapSet, hsr]
  · show mapSet (mapSet st.wallets s 9500) r (R + 500) r = some (R + 500)
    simp [mapSet]

/-- Witness for C5. -/
theorem walletSend_balance_10000_send_500_witness :
    (walletSend (mkState [("gina", 10000), ("hank", 7)])
        ⟨some "gina", some "hank", some 500⟩).2 = .ok
    ∧ (walletSend (mkState [("gina", 10000), ("hank", 7)])
        ⟨some "gina", some "hank", some 500⟩).1.wallets "gina" = some 9500
    ∧ (walletSend (mkState [("gina", 10000), ("hank", 7)])
        ⟨some "gina", some "hank", some 500⟩).1.wallets "hank" = some (7 + 500)
    ∧ (walletSend (mkState [("gina", 10000), ("hank", 7)])
        ⟨some "gina", some "hank", some 500⟩).1.txLog
        = (mkState [("gina", 10000), ("hank", 7)]).txLog ++ [⟨"gina", "hank", 500⟩] :=
  walletSend_balance_10000_send_500 _ "gina" "hank" 7
    (by decide) (by decide) (by decide) (by decide) (by decide)

/-- C6: at the failing input — sender `alice ↦ 1000`, an absent receiver wallet,
amount `500` — the code does not default the receiver's prior balance to `0` and
complete: the receiver `.single()` lookup errors on zero rows, so the call returns
the HTTP 500 internal error after the sender has already been debited to `500`,
with no receiver credit and no transaction appended (the `?.balance || 0` default
the code carries is unreachable for an absent wallet). -/
theorem walletSend_absent_receiver_errors_after_debit :
    (walletSend (mkState [("alice", 1000)]) ⟨some "alice", some "bob", some 500⟩).2
        = .internalError
    ∧ (walletSend (mkState [("alice", 1000)])
        ⟨some "alice", some "bob", some 500⟩).1.wallets "alice" = some 500
    ∧ (walletSend (mkState [("alice", 1000)])
        ⟨some "alice", some "bob", some 500⟩).1.wallets "bob" = none
    ∧ (walletSend (mkState [("alice", 1000)])
        ⟨some "alice", some "bob", some 500⟩).1.txLog = [] :=
  ⟨rfl, rfl, rfl, rfl⟩

/-- C10: a self-transfer of a positive amount within the balance reports success,
nets the wallet's balance to exactly its prior value (the credit is computed from
the already-debited balance and overwrites the debit), and appends exactly one
transaction record with that sender, receiver and amount. -/
theorem walletSend_self_transfer_noop
    (st : ServerState) (s : String) (bal a : Int)
    (hs : s ≠ "") (hw : st.wallets s = some bal)
    (hpos : 0 < a) (hle : a ≤ bal) :
    (walletSend st ⟨some s, some s, some a⟩).2 = .ok
    ∧ (walletSend st ⟨some s, some s, some a⟩).1.wallets s = some bal
    ∧ (walletSend st ⟨some s, some s, some a⟩).1.txLog
        = st.txLog ++ [⟨s, s, a⟩] := by
  have ha : ¬ a = 0 := by omega
  have hnlt : ¬ bal < a := by omega
  have h1 : walletSend st ⟨some s, some s, some a⟩
      = ({ st with
            wallets := mapSet (mapSet st.wallets s (bal - a)) s (bal - a + a),
            txLog := st.txLog ++ [⟨s, s, a⟩] }, .ok) := by
    simp only [walletSend, truthyStr, truthyInt, Option.getD_some, dbSingle, hw]
    have hm : mapSet st.wallets s (bal - a) s = some (bal - a) := by simp [mapSet]
    simp [hs, ha, hnlt, hm]
  rw [h1]
  refine ⟨rfl, ?_, rfl⟩
  show mapSet (mapSet st.wallets s (bal - a)) s (bal - a + a) s = some bal
  have : bal - a + a = bal := by omega
  simp [mapSet, this]

/-- Witness for C10. -/
theorem walletSend_self_transfer_noop_witness :
    (walletSend (mkState [("ivan", 100)]) ⟨some "ivan", some "ivan", some 40⟩).2 = .ok
    ∧ (walletSend (mkState [("ivan", 100)])
        ⟨some "ivan", some "ivan", some 40⟩).1.wallets "ivan" = some 100
    ∧ (walletSend (mkState [("ivan", 100)])
        ⟨some "ivan", some "ivan", some 40⟩).1.txLog
        = (mkState [("ivan", 100)]).txLog ++ [⟨"ivan", "ivan", 40⟩] :=
  walletSend_self_transfer_noop _ "ivan" 100 40
    (by decide) (by decide) (by decide) (by decide)

/-! ## Ceremony claims: concrete states and case lemmas -/

/-- A state with a registered user `alice` (credential `cred-1`), her wallet, and
no pending challenge. -/
def authState : ServerState :=
  { users := fun u => if u = "alice" then some ⟨"cred-1", "pk-1"⟩ else none
    wallets := fun u => if u = "alice" then some 10000 else none
    txLog := []
    challenges := fun _ => none }

/-- A state with no users and a stale pending challenge `old` for `alice`. -/
def stalePendingState : ServerState :=
  { users := fun _ => none
    wallets := fun _ => none
    txLog := []
    challenges := fun v => if v = "alice" then some "old" else none }

/-- A state with no users and a pending registration challenge for `bob`. -/
def pendingRegState : ServerState :=
  { users := fun _ => none
    wallets := fun _ => none
    txLog := []
    challenges := fun v => if v = "bob" then some "chb" else none }

/-- The state `authState` with a pending login challenge for `alice`. -/
def pendingLoginState : ServerState :=
  { authState with challenges := fun v => if v = "alice" then some "chc" else none }

/-- Operation `registerStart` either succeeds and caches the fresh challenge under the
username, or fails leaving the state untouched. -/
lemma registerStart_cases (st : ServerState) (un : Option String) (ch : String) :
    ((registerStart st un ch).2 = .ok
      ∧ (registerStart st un ch).1.challenges = mapSet st.challenges (un.getD "") ch)
    ∨ ((registerStart st un ch).2 ≠ .ok ∧ (registerStart st un ch).1 = st) := by
  simp only [registerStart]
  split
  · right; exact ⟨by simp, rfl⟩
  · split
    · right; exact ⟨by simp, rfl⟩
    · left; exact ⟨rfl, rfl⟩

/-- Operation `loginStart` either succeeds and caches the fresh challenge under the
username, or fails leaving the state untouched. -/
lemma loginStart_cases (st : ServerState) (un : Option String) (ch : String) :
    ((loginStart st un ch).2 = .ok
      ∧ (loginStart st un ch).1.challenges = mapSet st.challenges (un.getD "") ch)
    ∨ ((loginStart st un ch).2 ≠ .ok ∧ (loginStart st un ch).1 = st) := by
  simp only [loginStart]
  split
  · right; exact ⟨by simp, rfl⟩
  · split
    · right; exact ⟨by simp, rfl⟩
    · left; exact ⟨rfl, rfl⟩

/-- Operation `registerComplete` either succeeds — with a challenge that was cached and is
deleted — or fails with the challenge cache untouched (even when the user row was
already inserted before the wallet insert failed). -/
lemma registerComplete_cases (st : ServerState) (un : Option String)
    (cred : Option CredentialPayload) (orc : StoreOracle) :
    ((registerComplete st un cred orc).2 = .ok
      ∧ (∃ c, st.challenges (un.getD "") = some c)
      ∧ (registerComplete st un cred orc).1.challenges
          = mapDel st.challenges (un.getD ""))
    ∨ ((registerComplete st un cred orc).2 ≠ .ok
      ∧ (registerComplete st un cred orc).1.challenges = st.challenges) := by
  simp only [registerComplete]
  split
  · right; exact ⟨by simp, rfl⟩
  · split
    · right; exact ⟨by simp, rfl⟩
    · rename_i c hc
      split
      · right; exact ⟨by simp, rfl⟩
      · split
        · right; exact ⟨by simp, rfl⟩
        · left; exact ⟨rfl, ⟨c, hc⟩, rfl⟩

/-- Operation `loginComplete` either succeeds — with a challenge that was cached and is
deleted — or fails (validation, unknown user, missing challenge, or credential
mismatch) with the challenge cache untouched. -/
lemma loginComplete_cases (st : ServerState) (un : Option String)
    (cred : Option CredentialPayload) :
    ((loginComplete st un cred).2 = .ok
      ∧ (∃ c, st.challenges (un.getD "") = some c)
      ∧ (loginComplete st un cred).1.challenges = mapDel st.challenges (un.getD ""))
    ∨ ((loginComplete st un cred).2 ≠ .ok
      ∧ (loginComplete st un cred).1.challenges = st.challenges) := by
  simp only [loginComplete]
  split
  · right; exact ⟨by simp, rfl⟩
  · split
    · right; exact ⟨by simp, rfl⟩
    · split
      · right; exact ⟨by simp, rfl⟩
      · rename_i user c hc
        split
        · right; exact ⟨by simp, rfl⟩
        · left; exact ⟨rfl, ⟨c, hc⟩, rfl⟩

/-- With no cached challenge for the username, `registerComplete` cannot
succeed. -/
lemma registerComplete_not_ok_of_none (st : ServerState) (un : Option String)
    (cred : Option CredentialPayload) (orc : StoreOracle)
    (h : st.challenges (un.getD "") = none) :
    (registerComplete st un cred orc).2 ≠ .ok := by
  simp only [registerComplete]
  split
  · simp
  · rw [h]
    simp

/-- With no cached challenge for the username, `loginComplete` cannot succeed. -/
lemma loginComplete_not_ok_of_none (st : ServerState) (un : Option String)
    (cred : Option CredentialPayload)
    (h : st.challenges (un.getD "") = none) :
    (loginComplete st un cred).2 ≠ .ok := by
  simp only [loginComplete]
  split
  · simp
  · split
    · simp
    · rw [h]
      simp

/-- C8: for each username there is one challenge slot (`global.challenges` is a
map keyed by username) and (1–2) a successful `beginRegistration` or
`beginAuthentication` stores its fresh challenge in that slot, overwriting any
prior one; (3–4) every failing completion attempt — validation, missing
challenge, user-insert or wallet-insert store failure, unknown user, or
credential-id mismatch — leaves the challenge cache exactly as it was; (5–6) a
successful completion implies a challenge was cached, deletes it, and any
immediate second completion attempt for that username fails. -/
theorem challenge_lifecycle
    (st : ServerState) (u ch : String) (cred : Option CredentialPayload)
    (orc : StoreOracle) :
    ((registerStart st (some u) ch).2 = .ok →
        (registerStart st (some u) ch).1.challenges u = some ch)
    ∧ ((loginStart st (some u) ch).2 = .ok →
        (loginStart st (some u) ch).1.challenges u = some ch)
    ∧ ((registerComplete st (some u) cred orc).2 ≠ .ok →
        (registerComplete st (some u) cred orc).1.challenges = st.challenges)
    ∧ ((loginComplete st (some u) cred).2 ≠ .ok →
        (loginComplete st (some u) cred).1.challenges = st.challenges)
    ∧ ((registerComplete st (some u) cred orc).2 = .ok →
        (st.challenges u).isSome
        ∧ (registerComplete st (some u) cred orc).1.challenges u = none
        ∧ (∀ cred' orc', (registerComplete (registerComplete st (some u) cred orc).1
              (some u) cred' orc').2 ≠ .ok)
        ∧ (∀ cred', (loginComplete (registerComplete st (some u) cred orc).1
              (some u) cred').2 ≠ .ok))
    ∧ ((loginComplete st (some u) cred).2 = .ok →
        (st.challenges u).isSome
        ∧ (loginComplete st (some u) cred).1.challenges u = none
        ∧ (∀ cred' orc', (registerComplete (loginComplete st (some u) cred).1
              (some u) cred' orc').2 ≠ .ok)
        ∧ (∀ cred', (loginComplete (loginComplete st (some u) cred).1
              (some u) cred').2 ≠ .ok)) := by
  refine ⟨?_, ?_, ?_, ?_, ?_, ?_⟩
  · intro h
    rcases registerStart_cases st (some u) ch with ⟨_, hch⟩ | ⟨hnok, _⟩
    · rw [hch]
      simp [mapSet]
    · exact absurd h hnok
  · intro h
    rcases loginStart_cases st (some u) ch with ⟨_, hch⟩ | ⟨hnok, _⟩
    · rw [hch]
      simp [mapSet]
    · exact absurd h hnok
  · intro h
    rcases registerComplete_cases st (some u) cred orc with ⟨hok, _, _⟩ | ⟨_, hch⟩
    · exact absurd hok h
    · exact hch
  · intro h
    rcases loginComplete_cases st (some u) cred with ⟨hok, _, _⟩ | ⟨_, hch⟩
    · exact absurd hok h
    · exact hch
  · intro h
    rcases registerComplete_cases st (some u) cred orc with ⟨_, ⟨c, hc⟩, hch⟩ | ⟨hnok, _⟩
    · simp only [Option.getD_some] at hc hch
      have hdel : (registerComplete st (some u) cred orc).1.challenges u = none := by
        rw [hch]
        simp [mapDel]
      refine ⟨by simp [hc], hdel, ?_, ?_⟩
      · intro cred' orc'
        exact registerComplete_not_ok_of_none _ _ cred' orc' hdel
      · intro cred'
        exact loginComplete_not_ok_of_none _ _ cred' hdel
    · exact absurd h hnok
  · intro h
    rcases loginComplete_cases st (some u) cred with ⟨_, ⟨c, hc⟩, hch⟩ | ⟨hnok, _⟩
    · simp only [Option.getD_some] at hc hch
      have hdel : (loginComplete st (some u) cred).1.challenges u = none := by
        rw [hch]
        simp [mapDel]
      refine ⟨by simp [hc], hdel, ?_, ?_⟩
      · intro cred' orc'
        exact registerComplete_not_ok_of_none _ _ cred' orc' hdel
      · intro cred'
        exact loginComplete_not_ok_of_none _ _ cred' hdel
    · exact absurd h hnok

/-- Witness for C8, instantiating each limb at a concrete scenario: a begin call
overwriting a stale challenge, failing completions leaving the cache untouched,
and successful completions consuming the challenge so a second attempt fails. -/
theorem challenge_lifecycle_witness :
    (registerStart stalePendingState (some "alice") "new").1.challenges "alice"
        = some "new"
    ∧ (loginStart authState (some "alice") "ch").1.challenges "alice" = some "ch"
    ∧ (registerComplete authState (some "alice") (some ⟨"cred-1", none⟩)
        ⟨true, true⟩).1.challenges = authState.challenges
    ∧ (loginComplete authState (some "alice")
        (some ⟨"cred-1", none⟩)).1.challenges = authState.challenges
    ∧ (registerComplete pendingRegState (some "bob") (some ⟨"cred-9", none⟩)
        ⟨true, true⟩).1.challenges "bob" = none
    ∧ (loginComplete (loginComplete pendingLoginState (some "alice")
          (some ⟨"cred-1", none⟩)).1 (some "alice")
        (some ⟨"cred-1", none⟩)).2 ≠ .ok :=
  ⟨(challenge_lifecycle stalePendingState "alice" "new" none ⟨true, true⟩).1
      (by decide),
   (challenge_lifecycle authState "alice" "ch" none ⟨true, true⟩).2.1 (by decide),
   (challenge_lifecycle authState "alice" "ch" (some ⟨"cred-1", none⟩)
      ⟨true, true⟩).2.2.1 (by decide),
   (challenge_lifecycle authState "alice" "ch" (some ⟨"cred-1", none⟩)
      ⟨true, true⟩).2.2.2.1 (by decide),
   ((challenge_lifecycle pendingRegState "bob" "x" (some ⟨"cred-9", none⟩)
      ⟨true, true⟩).2.2.2.2.1 (by decide)).2.1,
   ((challenge_lifecycle pendingLoginState "alice" "x" (some ⟨"cred-1", none⟩)
      ⟨true, true⟩).2.2.2.2.2 (by decide)).2.2.2 (some ⟨"cred-1", none⟩)⟩

/-- C9 counterexample: registration and authentication share the single
`global.challenges` map, so after `beginAuthentication("alice")` (no
`beginRegistration` ever ran) the cached login challenge lets
`completeRegistration("alice", …)` pass the challenge check: it fails with the
HTTP 500 duplicate-user store error, not with the no-challenge validation
error. -/
theorem registerComplete_after_loginStart_cex :
    (registerComplete (loginStart authState (some "alice") "ch-1").1 (some "alice")
        (some ⟨"cred-2", none⟩) ⟨true, true⟩).2 = .storeError
    ∧ (registerComplete (loginStart authState (some "alice") "ch-1").1 (some "alice")
        (some ⟨"cred-2", none⟩) ⟨true, true⟩).2 ≠ .noChallenge :=
  ⟨rfl, by decide⟩

/-- C9 (amended): `completeRegistration` fails with the no-challenge validation
error exactly when no challenge is cached for the username — that is, when
neither `beginRegistration` nor `beginAuthentication` has cached one — leaving
the state untouched; a prior `beginAuthentication` for the same username defeats
the property as originally stated. -/
theorem registerComplete_no_cached_challenge
    (st : ServerState) (u : String) (cred : Option CredentialPayload)
    (orc : StoreOracle)
    (hu : u ≠ "") (hcred : cred ≠ none) (hch : st.challenges u = none) :
    registerComplete st (some u) cred orc = (st, .noChallenge) := by
  simp only [registerComplete, truthyStr, Option.getD_some, hch]
  simp [hu, hcred]

/-- Witness for the amended C9. -/
theorem registerComplete_no_cached_challenge_witness :
    registerComplete (mkState []) (some "walt") (some ⟨"c", none⟩) ⟨true, true⟩
      = (mkState [], .noChallenge) :=
  registerComplete_no_cached_challenge _ "walt" _ _ (by decide) (by decide) rfl

end FPWallet
